import Mathlib

/-!
Verification of the record-extraction and deduplicated-append ingestion
pipeline of the pcap-to-Parquet converter
(src/rust_pcap_converter/src/main.rs).

The Rust source is shallowly embedded: packets are lists of named layers
carrying named string metadata, DataFrames are row lists of records, the
hex codec models the `hex` crate's per-character table, and the
merge/persist decision logic of `main` is an explicit pure function.
-/

/-- The hex crate's per-character decode table: digits, lowercase and
uppercase `a`-`f` are accepted, everything else is a decode error. -/
def hexDigitTable : List (Char × Nat) :=
  [('0', 0), ('1', 1), ('2', 2), ('3', 3), ('4', 4), ('5', 5), ('6', 6), ('7', 7),
   ('8', 8), ('9', 9),
   ('a', 10), ('b', 11), ('c', 12), ('d', 13), ('e', 14), ('f', 15),
   ('A', 10), ('B', 11), ('C', 12), ('D', 13), ('E', 14), ('F', 15)]

/-- Decode one hex digit character through `hexDigitTable`. -/
def hexDigitVal (c : Char) : Option Nat :=
  (hexDigitTable.find? fun q => q.1 == c).map fun q => q.2

/-- Models the hex crate's encode table lookup into `0123456789abcdef`
(the fallback branch is unreachable for nibble values below 16). -/
def hexDigitChar (n : Nat) : Char :=
  if n = 0 then '0' else if n = 1 then '1' else if n = 2 then '2'
  else if n = 3 then '3' else if n = 4 then '4' else if n = 5 then '5'
  else if n = 6 then '6' else if n = 7 then '7' else if n = 8 then '8'
  else if n = 9 then '9'
  else if n = 10 then 'a' else if n = 11 then 'b' else if n = 12 then 'c'
  else if n = 13 then 'd' else if n = 14 then 'e' else if n = 15 then 'f'
  else '0'

/-- Models `hex::decode` on a character list: two hex digits per output
byte, failing on an odd-length input or any non-hex character. -/
def hexDecodeList : List Char → Option (List Nat)
  | [] => some []
  | [_] => none
  | c1 :: c2 :: rest =>
    match hexDigitVal c1, hexDigitVal c2, hexDecodeList rest with
    | some hi, some lo, some tail => some ((16 * hi + lo) :: tail)
    | _, _, _ => none

/-- Models `hex::encode` on a byte list: each byte becomes its high and
low nibble characters from the lowercase table. -/
def hexEncodeList : List Nat → List Char
  | [] => []
  | b :: rest => hexDigitChar (b / 16) :: hexDigitChar (b % 16) :: hexEncodeList rest

/-- `hex::decode` at the `String` interface used by `process_packet`. -/
def hexDecode (s : String) : Option (List Nat) :=
  hexDecodeList s.data

/-- `hex::encode` at the `String` interface used by `process_packet`. -/
def hexEncode (bs : List Nat) : String :=
  String.mk (hexEncodeList bs)

/-- Character-wise lowercasing of a string (the canonical form produced
by `hex::encode`). -/
def lowerStr (s : String) : String :=
  String.mk (s.data.map Char.toLower)

/-- Models `payload_hex.replace(':', "")` from `process_packet`: every
colon is removed, all other characters kept in order. -/
def stripColons (s : String) : String :=
  String.mk (s.data.filter fun c => c != ':')

/-- Models Rust `str::parse::<u8>`: an optional leading plus sign, then
decimal digits, rejecting values above 255. -/
def parseU8 (s : String) : Option Nat :=
  let t := match s.data with
    | '+' :: rest => String.mk rest
    | _ => s
  match t.toNat? with
  | some n => if n ≤ 255 then some n else none
  | none => none

/-- Models Rust `str::parse::<u32>`: an optional leading plus sign, then
decimal digits, rejecting values at or above 2^32. -/
def parseU32 (s : String) : Option Nat :=
  let t := match s.data with
    | '+' :: rest => String.mk rest
    | _ => s
  match t.toNat? with
  | some n => if n < 2 ^ 32 then some n else none
  | none => none

/-- Models Rust `str::parse::<u64>`: an optional leading plus sign, then
decimal digits, rejecting values at or above 2^64. -/
def parseU64 (s : String) : Option Nat :=
  let t := match s.data with
    | '+' :: rest => String.mk rest
    | _ => s
  match t.toNat? with
  | some n => if n < 2 ^ 64 then some n else none
  | none => none

/-- Digit run to number, used by the decimal parse model. -/
def digitsToNat (cs : List Char) : Nat :=
  cs.foldl (fun a c => 10 * a + (c.toNat - 48)) 0

/-- Models Rust `str::parse::<f64>` at its decimal core (optional sign,
digits, optional fractional part), with exact rational values.  The
claims depend only on whether this parse succeeds, never on the value:
an unparseable field falls back to the documented default. -/
def parseF64 (s : String) : Option Rat :=
  let cs := s.data
  let signed : Bool × List Char := match cs with
    | '-' :: rest => (true, rest)
    | '+' :: rest => (false, rest)
    | _ => (false, cs)
  let ip := signed.2.takeWhile Char.isDigit
  let rest := signed.2.dropWhile Char.isDigit
  if ip = [] then none
  else
    match rest with
    | [] => some (if signed.1 then -(digitsToNat ip : Rat) else (digitsToNat ip : Rat))
    | '.' :: fp =>
      if fp ≠ [] ∧ fp.all Char.isDigit then
        let v : Rat := (digitsToNat ip : Rat) + (digitsToNat fp : Rat) / (10 : Rat) ^ fp.length
        some (if signed.1 then -v else v)
      else none
    | _ => none

/-- One named metadata field of a protocol layer, as exposed by the
rtshark collaborator (`metadata.name` / `metadata.value`). -/
structure PacketMetadata where
  name : String
  value : String
deriving Repr, DecidableEq

/-- One named protocol layer of a parsed packet. -/
structure PacketLayer where
  name : String
  fields : List PacketMetadata
deriving Repr, DecidableEq

/-- A parsed packet from the capture collaborator: a list of named
layers, each carrying named metadata fields. -/
structure Packet where
  layers : List PacketLayer
deriving Repr, DecidableEq

/-- Models `rtshark::Packet::layer_name`: the first layer with the given
name, or absent. -/
def Packet.layer_name (p : Packet) (n : String) : Option PacketLayer :=
  p.layers.find? fun l => l.name == n

/-- Models `rtshark::Layer::metadata(..).map(|m| m.value())`: the value
of the first metadata field with the given name, or absent. -/
def PacketLayer.metadata (l : PacketLayer) (n : String) : Option String :=
  (l.fields.find? fun m => m.name == n).map fun m => m.value

/-- Mirrors the Rust struct `UsbPacketRecord` field for field.  Machine
integers become `Nat` (their parse models enforce the width bounds), the
`f64` timestamp becomes an exact `Rat`, nullable fields become
`Option`. -/
structure UsbPacketRecord where
  session_id : String
  frame_number : Nat
  timestamp : Rat
  timestamp_absolute : String
  direction : String
  device_address : Nat
  bus_id : Nat
  endpoint_address : String
  endpoint_number : Nat
  transfer_type : String
  urb_type : String
  urb_status : String
  data_length : Nat
  urb_length : Nat
  payload_hex : String
  payload_bytes_hex : String
  setup_flag : String
  data_flag : String
  interval : Nat
  start_frame : Nat
  frame_length : Nat
  frame_protocols : String
  source_file : String
  bmrequest_type : Option String
  brequest : Option String
  brequest_name : Option String
  wvalue : Option Nat
  windex : Option Nat
  wlength : Option Nat
  descriptor_type : Option String
  descriptor_index : Option Nat
  language_id : Option Nat
  transfer_flags : Option String
  copy_of_transfer_flags : Option String
  urb_id : String
  usb_src : String
  usb_dst : String
  usb_addr : String
  urb_ts_sec : Nat
  urb_ts_usec : Nat
  added_datetime : String
deriving Repr, DecidableEq

/-- The two error strings `process_packet` can produce: missing `frame`
or `usb` layer ("Missing frame layer" / "Missing USB layer"), and a hex
payload that fails to decode ("Failed to decode hex payload ..."),
carrying the cleaned hex string from the message. -/
inductive ExtractError where
  | missingLayer (which : String)
  | malformedPayload (cleanHex : String)
deriving Repr, DecidableEq

/-- The payload decode step of `process_packet` (main.rs lines 374-380):
an empty cleaned string decodes to an empty byte vector, a non-empty one
goes through `hex::decode`. -/
def hexDecodePayload (clean_hex : String) : Option (List Nat) :=
  if clean_hex = "" then some []
  else hexDecode clean_hex

/-- Shallow embedding of `process_packet` (main.rs lines 263-457).  The
`now` argument stands for `chrono::Utc::now().to_rfc3339()`; `verbose`
only controls logging in the source and does not affect the result. -/
def process_packet (packet : Packet) (session_id : String) (verbose : Bool)
    (now : String) : Except ExtractError UsbPacketRecord :=
  match packet.layer_name "frame" with
  | none => .error (.missingLayer "frame")
  | some frame_layer =>
    match packet.layer_name "usb" with
    | none => .error (.missingLayer "usb")
    | some usb_layer =>
      let frame_num : Nat := ((frame_layer.metadata "frame.number").bind parseU32).getD 0
      let timestamp : Rat := ((frame_layer.metadata "frame.time_relative").bind parseF64).getD 0
      let timestamp_absolute := (frame_layer.metadata "frame.time").getD "Unknown"
      let frame_length : Nat := ((frame_layer.metadata "frame.len").bind parseU32).getD 0
      let frame_protocols := (frame_layer.metadata "frame.protocols").getD "Unknown"
      let direction :=
        match usb_layer.metadata "usb.endpoint_address.direction" with
        | some "0" => "H->D"
        | some "1" => "D->H"
        | _ => "Unknown"
      let device_address : Nat := ((usb_layer.metadata "usb.device_address").bind parseU8).getD 0
      let bus_id : Nat := ((usb_layer.metadata "usb.bus_id").bind parseU8).getD 0
      let endpoint_address := (usb_layer.metadata "usb.endpoint_address").getD "Unknown"
      let endpoint_number : Nat :=
        ((usb_layer.metadata "usb.endpoint_address.number").bind parseU8).getD 0
      let transfer_type := (usb_layer.metadata "usb.transfer_type").getD "Unknown"
      let urb_type := (usb_layer.metadata "usb.urb_type").getD "Unknown"
      let urb_status := (usb_layer.metadata "usb.urb_status").getD "Unknown"
      let data_length : Nat := ((usb_layer.metadata "usb.data_len").bind parseU32).getD 0
      let urb_length : Nat := ((usb_layer.metadata "usb.urb_len").bind parseU32).getD 0
      let setup_flag := (usb_layer.metadata "usb.setup_flag").getD "Unknown"
      let data_flag := (usb_layer.metadata "usb.data_flag").getD "Unknown"
      let interval : Nat := ((usb_layer.metadata "usb.interval").bind parseU32).getD 0
      let start_frame : Nat := ((usb_layer.metadata "usb.start_frame").bind parseU32).getD 0
      let payload_hex := (usb_layer.metadata "usb.capdata").getD ""
      let clean_hex := stripColons payload_hex
      match hexDecodePayload clean_hex with
      | none => .error (.malformedPayload clean_hex)
      | some payload_bytes =>
        let bmrequest_type := usb_layer.metadata "usb.bmRequestType"
        let brequest := usb_layer.metadata "usb.setup.bRequest"
        let brequest_name := usb_layer.metadata "usb.setup.bRequest.name"
        let wvalue := (usb_layer.metadata "usb.setup.wValue").bind parseU32
        let windex := (usb_layer.metadata "usb.setup.wIndex").bind parseU32
        let wlength := (usb_layer.metadata "usb.setup.wLength").bind parseU32
        let descriptor_type := usb_layer.metadata "usb.bDescriptorType"
        let descriptor_index := (usb_layer.metadata "usb.setup.wValue.descriptor_index").bind parseU32
        let language_id := (usb_layer.metadata "usb.setup.wValue.language_id").bind parseU32
        let transfer_flags := usb_layer.metadata "usb.transfer_flags"
        let copy_of_transfer_flags := usb_layer.metadata "usb.copy_of_transfer_flags"
        let urb_id := (usb_layer.metadata "usb.urb_id").getD "Unknown"
        let usb_src := (usb_layer.metadata "usb.src").getD "Unknown"
        let usb_dst := (usb_layer.metadata "usb.dst").getD "Unknown"
        let usb_addr := (usb_layer.metadata "usb.addr").getD "Unknown"
        let urb_ts_sec : Nat := ((usb_layer.metadata "usb.urb_ts_sec").bind parseU64).getD 0
        let urb_ts_usec : Nat := ((usb_layer.metadata "usb.urb_ts_usec").bind parseU32).getD 0
        .ok {
          session_id := session_id
          frame_number := frame_num
          timestamp := timestamp
          timestamp_absolute := timestamp_absolute
          direction := direction
          device_address := device_address
          bus_id := bus_id
          endpoint_address := endpoint_address
          endpoint_number := endpoint_number
          transfer_type := transfer_type
          urb_type := urb_type
          urb_status := urb_status
          data_length := data_length
          urb_length := urb_length
          payload_hex := clean_hex
          payload_bytes_hex := hexEncode payload_bytes
          setup_flag := setup_flag
          data_flag := data_flag
          interval := interval
          start_frame := start_frame
          frame_length := frame_length
          frame_protocols := frame_protocols
          source_file := session_id
          bmrequest_type := bmrequest_type
          brequest := brequest
          brequest_name := brequest_name
          wvalue := wvalue
          windex := windex
          wlength := wlength
          descriptor_type := descriptor_type
          descriptor_index := descriptor_index
          language_id := language_id
          transfer_flags := transfer_flags
          copy_of_transfer_flags := copy_of_transfer_flags
          urb_id := urb_id
          usb_src := usb_src
          usb_dst := usb_dst
          usb_addr := usb_addr
          urb_ts_sec := urb_ts_sec
          urb_ts_usec := urb_ts_usec
          added_datetime := now }

/-- The distinct `session_id` values of a persisted dataset, modelling
`existing_df.column("session_id").unique()` (main.rs lines 203-209);
only membership in this list is ever used. -/
def sessionIds (df : List UsbPacketRecord) : List String :=
  (df.map fun r => r.session_id).dedup

/-- The duplicate-content sample count of main.rs lines 221-225: the
first 5 `urb_id` values of the new batch that also occur among the first
100 `urb_id` values of the existing dataset, counted with multiplicity
over the new sample. -/
def sampleOverlap (newRecords existing : List UsbPacketRecord) : Nat :=
  (((newRecords.map fun r => r.urb_id).take 5).filter
    fun id => ((existing.map fun r => r.urb_id).take 100).contains id).length

/-- The possible outcomes of one invocation's merge/persist decision in
`main`: the empty-batch short circuit (line 188), the two duplicate
rejections (lines 211 and 226), appending onto the existing rows
(line 234), and writing the new batch as the whole dataset (line 244). -/
inductive MergeOutcome where
  | emptyBatch
  | rejectedDuplicateSession
  | rejectedLikelyDuplicateContent
  | combined (table : List UsbPacketRecord)
  | replace (table : List UsbPacketRecord)
deriving Repr, DecidableEq

/-- Shallow embedding of the merge decision of `main` (main.rs lines
188-245).  `existing` is `some` exactly when `args.output.exists()`;
DataFrames are modelled as row lists, `vstack` as list append. -/
def merge (newRecords : List UsbPacketRecord) (existing : Option (List UsbPacketRecord))
    (session_id : String) (append : Bool) : MergeOutcome :=
  if newRecords.isEmpty then .emptyBatch
  else
    match existing, append with
    | some existing_df, true =>
      if session_id ∈ sessionIds existing_df then .rejectedDuplicateSession
      else if 0 < newRecords.length ∧ 0 < existing_df.length ∧
          2 ≤ sampleOverlap newRecords existing_df then
        .rejectedLikelyDuplicateContent
      else .combined (existing_df ++ newRecords)
    | _, _ => .replace newRecords

/-- The persisted dataset after acting on a merge outcome: `Combined`
and `Replace` write their table (main.rs lines 249-250), every other
outcome returns before the write and leaves the file untouched. -/
def writeEffect (existing : Option (List UsbPacketRecord)) (outcome : MergeOutcome) :
    Option (List UsbPacketRecord) :=
  match outcome with
  | .combined t => some t
  | .replace t => some t
  | _ => existing

/-- The extracted-record count reported after the packet loop
(main.rs line 185). -/
def reportedRecordCount (records : List UsbPacketRecord) : Nat :=
  records.length

/-- Splits a character list at its last `.`: the part before and the
part after, or absent when there is no dot.  Models the
`filename.rfind('.')` slicing in `main`. -/
def splitAtLastDot (cs : List Char) : Option (List Char × List Char) :=
  match (cs.reverse.dropWhile fun c => c != '.') with
  | [] => none
  | _ :: before => some (before.reverse, (cs.reverse.takeWhile fun c => c != '.').reverse)

/-- The device-address auto-detection of main.rs lines 99-117: take the
text between the last two dots of the filename and parse it as a `u8`;
absent when either dot is missing or the parse fails. -/
def autoDetectDeviceAddress (filename : String) : Option Nat :=
  match splitAtLastDot filename.data with
  | none => none
  | some (before_ext, _) =>
    match splitAtLastDot before_ext with
    | none => none
    | some (_, potential_id) => parseU8 (String.mk potential_id)

/-- The error message of main.rs lines 110, 113 and 116 (identical in
all three auto-detection failure branches). -/
def detectErrMsg : String :=
  "Could not auto-detect device address from filename. Please provide --device-address"

/-- Device-address resolution in `main` (lines 96-118): an explicit
argument wins, otherwise filename auto-detection, otherwise the run
fails with `detectErrMsg`. -/
def resolveDeviceAddress (arg : Option Nat) (filename : String) : Except String Nat :=
  match arg with
  | some addr => .ok addr
  | none =>
    match autoDetectDeviceAddress filename with
    | some id => .ok id
    | none => .error detectErrMsg

/-- Session-id resolution in `main` (lines 121-131): an explicit
argument wins, otherwise the filename with its last extension removed,
otherwise the whole filename.  Note this function is total: it has no
failure branch in the source. -/
def resolveSessionId (arg : Option String) (filename : String) : String :=
  match arg with
  | some id => id
  | none =>
    match splitAtLastDot filename.data with
    | some (before_ext, _) => String.mk before_ext
    | none => filename

/-- The pre-processing identifier resolution of `main` in source order:
device address first (fallible), then session id (total). -/
def resolveIdentifiers (deviceArg : Option Nat) (sessionArg : Option String)
    (filename : String) : Except String (Nat × String) :=
  match resolveDeviceAddress deviceArg filename with
  | .error e => .error e
  | .ok addr => .ok (addr, resolveSessionId sessionArg filename)

/-- Outcome of the process after the final table reached `main`'s save
point: overall success with a row count (possibly after a statistics
warning), or a failure. -/
inductive RunResult where
  | success (rows : Nat) (statsWarned : Bool)
  | failure (msg : String)
deriving Repr, DecidableEq

/-- The post-save tail of `main` (lines 252-260): the success line is
printed with the saved row count, then a `print_statistics` failure is
caught and downgraded to a warning; the function still returns `Ok`.
The statistics computation itself runs in the storage collaborator, so
its result is a parameter. -/
def finalizeAfterSave (final_df : List UsbPacketRecord)
    (statsResult : Except String Unit) : RunResult :=
  match statsResult with
  | .ok _ => .success final_df.length false
  | .error _ => .success final_df.length true

/-- A concrete record with all fields at their documented defaults,
tagged with the given session id and urb id; used to instantiate the
merge theorems on concrete datasets. -/
def mkRec (sid uid : String) : UsbPacketRecord :=
  { session_id := sid, frame_number := 0, timestamp := 0, timestamp_absolute := "Unknown",
    direction := "Unknown", device_address := 0, bus_id := 0, endpoint_address := "Unknown",
    endpoint_number := 0, transfer_type := "Unknown", urb_type := "Unknown",
    urb_status := "Unknown", data_length := 0, urb_length := 0, payload_hex := "",
    payload_bytes_hex := "", setup_flag := "Unknown", data_flag := "Unknown", interval := 0,
    start_frame := 0, frame_length := 0, frame_protocols := "Unknown", source_file := sid,
    bmrequest_type := none, brequest := none, brequest_name := none, wvalue := none,
    windex := none, wlength := none, descriptor_type := none, descriptor_index := none,
    language_id := none, transfer_flags := none, copy_of_transfer_flags := none,
    urb_id := uid, usb_src := "Unknown", usb_dst := "Unknown", usb_addr := "Unknown",
    urb_ts_sec := 0, urb_ts_usec := 0, added_datetime := "T" }

/-- A concrete packet with a `frame` layer, a `usb` layer, a
mixed-case colon-separated payload and a device-to-host direction
field; used to instantiate the extraction theorems. -/
def samplePacket : Packet :=
  ⟨[⟨"frame", []⟩,
    ⟨"usb", [⟨"usb.capdata", "1a:2B"⟩, ⟨"usb.endpoint_address.direction", "1"⟩]⟩]⟩

/-- The record `process_packet` extracts from `samplePacket` under
session id `"S"` at time `"T"`. -/
def sampleRecord : UsbPacketRecord :=
  { session_id := "S", frame_number := 0, timestamp := 0, timestamp_absolute := "Unknown",
    direction := "D->H", device_address := 0, bus_id := 0, endpoint_address := "Unknown",
    endpoint_number := 0, transfer_type := "Unknown", urb_type := "Unknown",
    urb_status := "Unknown", data_length := 0, urb_length := 0, payload_hex := "1a2B",
    payload_bytes_hex := "1a2b", setup_flag := "Unknown", data_flag := "Unknown",
    interval := 0, start_frame := 0, frame_length := 0, frame_protocols := "Unknown",
    source_file := "S", bmrequest_type := none, brequest := none, brequest_name := none,
    wvalue := none, windex := none, wlength := none, descriptor_type := none,
    descriptor_index := none, language_id := none, transfer_flags := none,
    copy_of_transfer_flags := none, urb_id := "Unknown", usb_src := "Unknown",
    usb_dst := "Unknown", usb_addr := "Unknown", urb_ts_sec := 0, urb_ts_usec := 0,
    added_datetime := "T" }

/-- A character the decode table accepts maps to a nibble below 16, and
re-encoding that nibble yields the character's lowercase form. -/
theorem hexDigitVal_toLower (c : Char) (h : Nat) (hv : hexDigitVal c = some h) :
    h < 16 ∧ hexDigitChar h = Char.toLower c := by
  unfold hexDigitVal at hv
  rcases hf : hexDigitTable.find? fun q => q.1 == c with _ | p
  · rw [hf] at hv; exact Option.noConfusion hv
  · rw [hf] at hv
    obtain rfl : p.2 = h := Option.some.inj hv
    have hpc := List.find?_some hf
    have hmem := List.mem_of_find?_eq_some hf
    obtain rfl : p.1 = c := by simpa using hpc
    fin_cases hmem <;> exact ⟨by decide, by decide⟩

/-- Decode-then-encode round trip at the character-list level: a
successful decode re-encodes to the lowercase form of the input. -/
theorem hexDecodeList_roundtrip (bs : List Nat) :
    ∀ cs : List Char, hexDecodeList cs = some bs →
      hexEncodeList bs = cs.map Char.toLower := by
  induction bs with
  | nil =>
    intro cs h
    match cs with
    | [] => simp [hexEncodeList]
    | [c] => simp [hexDecodeList] at h
    | c1 :: c2 :: rest =>
      unfold hexDecodeList at h
      split at h
      · exact absurd (Option.some.inj h) (by simp)
      · exact Option.noConfusion h
  | cons b tl ih =>
    intro cs h
    match cs with
    | [] => simp [hexDecodeList] at h
    | [c] => simp [hexDecodeList] at h
    | c1 :: c2 :: rest =>
      unfold hexDecodeList at h
      split at h
      next hi lo tail heq1 heq2 heq3 =>
        have hcons := Option.some.inj h
        obtain ⟨hb, htl⟩ : 16 * hi + lo = b ∧ tail = tl :=
          ⟨(List.cons.inj hcons).1, (List.cons.inj hcons).2⟩
        subst hb; subst htl
        obtain ⟨hhi, hchi⟩ := hexDigitVal_toLower c1 hi heq1
        obtain ⟨hlo, hclo⟩ := hexDigitVal_toLower c2 lo heq2
        have hdiv : (16 * hi + lo) / 16 = hi := by omega
        have hmod : (16 * hi + lo) % 16 = lo := by omega
        simp only [hexEncodeList, List.map]
        rw [hdiv, hmod, hchi, hclo, ih rest heq3]
      next => exact Option.noConfusion h

/-- Decode-then-encode round trip at the `String` level. -/
theorem hexDecode_roundtrip (s : String) (bs : List Nat) (h : hexDecode s = some bs) :
    hexEncode bs = lowerStr s := by
  unfold hexDecode at h
  unfold hexEncode lowerStr
  rw [hexDecodeList_roundtrip bs s.data h]

/-- Removing colons twice is the same as removing them once. -/
theorem stripColons_idem (s : String) : stripColons (stripColons s) = stripColons s := by
  unfold stripColons
  simp [List.filter_filter]

/-- The payload decode step returns an error exactly for a non-empty
cleaned string that fails hex decoding. -/
theorem hexDecodePayload_eq_none (s : String) :
    hexDecodePayload s = none ↔ s ≠ "" ∧ hexDecode s = none := by
  unfold hexDecodePayload
  split
  · simp_all
  · simp_all

/-- A successful payload decode agrees with plain `hex::decode` (an
empty cleaned string decodes to the empty byte sequence). -/
theorem hexDecodePayload_eq_some (s : String) (bs : List Nat)
    (h : hexDecodePayload s = some bs) : hexDecode s = some bs := by
  unfold hexDecodePayload at h
  split at h
  · subst_vars
    cases Option.some.inj h
    rfl
  · exact h

/-- Occurrences of one value are at most the matches of any predicate
that value satisfies. -/
theorem count_le_countP (l : List String) (v : String) (p : String → Bool)
    (hv : p v = true) : l.count v ≤ l.countP p := by
  induction l with
  | nil => simp
  | cons a tl ih =>
    by_cases hav : a = v
    · subst hav
      simp [List.count_cons, List.countP_cons, hv]
      omega
    · simp [List.count_cons, List.countP_cons, hav]
      cases hpa : p a <;> simp <;> omega

/-- A positive sampled overlap forces the existing dataset to be
non-empty. -/
theorem sampleOverlap_pos_ne_nil (newRecords ex : List UsbPacketRecord)
    (h : 0 < sampleOverlap newRecords ex) : ex ≠ [] := by
  intro hnil
  subst hnil
  simp [sampleOverlap] at h

/-- C1: for every existing dataset whose session ids contain the
caller-supplied session id, an append-mode merge performs no write and
leaves the persisted dataset unchanged whatever the new records contain,
and whenever there are records to merge the outcome is
`Rejected(DuplicateSession)` (an empty batch short-circuits earlier, by
C7, likewise without writing). -/
theorem merge_duplicate_session (newRecords ex : List UsbPacketRecord) (sid : String)
    (hmem : sid ∈ sessionIds ex) :
    writeEffect (some ex) (merge newRecords (some ex) sid true) = some ex ∧
    (newRecords ≠ [] →
      merge newRecords (some ex) sid true = MergeOutcome.rejectedDuplicateSession) := by
  by_cases hne : newRecords = []
  · subst hne
    exact ⟨rfl, fun hcon => absurd rfl hcon⟩
  · have hie : newRecords.isEmpty = false := by
      simpa [List.isEmpty_iff] using hne
    constructor
    · simp [merge, hie, hmem, writeEffect]
    · intro _
      simp [merge, hie, hmem]

/-- Witness for C1 on a concrete dataset already holding session `S1`:
the dataset is untouched and the merge is rejected as a duplicate
session. -/
theorem merge_duplicate_session_witness :
    writeEffect (some [mkRec "S1" "u1"])
        (merge [mkRec "S1" "u9"] (some [mkRec "S1" "u1"]) "S1" true) =
      some [mkRec "S1" "u1"] ∧
    ([mkRec "S1" "u9"] ≠ ([] : List UsbPacketRecord) →
      merge [mkRec "S1" "u9"] (some [mkRec "S1" "u1"]) "S1" true =
        MergeOutcome.rejectedDuplicateSession) :=
  merge_duplicate_session [mkRec "S1" "u9"] [mkRec "S1" "u1"] "S1" (by decide)

/-- C2: for an append-mode merge of a non-empty batch under a fresh
session id, a sampled urb-id overlap of at least 2 (first 5 new ids
against first 100 existing ids) yields
`Rejected(LikelyDuplicateContent)` and no write, while an overlap below
2 proceeds to `Combined`. -/
theorem merge_urb_heuristic (newRecords ex : List UsbPacketRecord) (sid : String)
    (hne : newRecords ≠ []) (hsid : sid ∉ sessionIds ex) :
    (2 ≤ sampleOverlap newRecords ex →
      merge newRecords (some ex) sid true = MergeOutcome.rejectedLikelyDuplicateContent ∧
      writeEffect (some ex) (merge newRecords (some ex) sid true) = some ex) ∧
    (sampleOverlap newRecords ex < 2 →
      merge newRecords (some ex) sid true = MergeOutcome.combined (ex ++ newRecords)) := by
  have hie : newRecords.isEmpty = false := by simpa [List.isEmpty_iff] using hne
  have hlen : 0 < newRecords.length := List.length_pos.mpr hne
  constructor
  · intro hover
    have hexne : ex ≠ [] := sampleOverlap_pos_ne_nil newRecords ex (by omega)
    have hexlen : 0 < ex.length := List.length_pos.mpr hexne
    constructor
    · simp [merge, hie, hsid, hlen, hexlen, hover]
    · simp [merge, hie, hsid, hlen, hexlen, hover, writeEffect]
  · intro hover
    have hnotall : ¬(0 < newRecords.length ∧ 0 < ex.length ∧
        2 ≤ sampleOverlap newRecords ex) := by
      rintro ⟨-, -, h2⟩; omega
    simp [merge, hie, hsid, hnotall]

/-- Witness for C2 on concrete datasets sharing two sampled urb ids
under distinct session ids. -/
theorem merge_urb_heuristic_witness :
    (2 ≤ sampleOverlap [mkRec "S2" "u1", mkRec "S2" "u2"] [mkRec "S1" "u1", mkRec "S1" "u2"] →
      merge [mkRec "S2" "u1", mkRec "S2" "u2"] (some [mkRec "S1" "u1", mkRec "S1" "u2"])
          "S2" true = MergeOutcome.rejectedLikelyDuplicateContent ∧
      writeEffect (some [mkRec "S1" "u1", mkRec "S1" "u2"])
          (merge [mkRec "S2" "u1", mkRec "S2" "u2"] (some [mkRec "S1" "u1", mkRec "S1" "u2"])
            "S2" true) =
        some [mkRec "S1" "u1", mkRec "S1" "u2"]) ∧
    (sampleOverlap [mkRec "S2" "u1", mkRec "S2" "u2"] [mkRec "S1" "u1", mkRec "S1" "u2"] < 2 →
      merge [mkRec "S2" "u1", mkRec "S2" "u2"] (some [mkRec "S1" "u1", mkRec "S1" "u2"])
          "S2" true =
        MergeOutcome.combined
          ([mkRec "S1" "u1", mkRec "S1" "u2"] ++ [mkRec "S2" "u1", mkRec "S2" "u2"])) :=
  merge_urb_heuristic [mkRec "S2" "u1", mkRec "S2" "u2"] [mkRec "S1" "u1", mkRec "S1" "u2"]
    "S2" (by decide) (by decide)

/-- C3: `process_packet` fails exactly when the `frame` or `usb` layer
is absent (with the corresponding `MissingLayer` error) or when the
colon-stripped payload hex string is non-empty and fails hex decoding
(with `MalformedPayload`); an empty cleaned payload decodes to the empty
byte sequence and absence or unparseability of any individual field
never causes failure. -/
theorem extract_failure_iff (p : Packet) (session_id : String) (verbose : Bool)
    (now : String) (e : ExtractError) :
    process_packet p session_id verbose now = Except.error e ↔
      (e = ExtractError.missingLayer "frame" ∧ p.layer_name "frame" = none) ∨
      (e = ExtractError.missingLayer "usb" ∧ p.layer_name "frame" ≠ none ∧
        p.layer_name "usb" = none) ∨
      (∃ ul, p.layer_name "frame" ≠ none ∧ p.layer_name "usb" = some ul ∧
        e = ExtractError.malformedPayload (stripColons ((ul.metadata "usb.capdata").getD "")) ∧
        stripColons ((ul.metadata "usb.capdata").getD "") ≠ "" ∧
        hexDecode (stripColons ((ul.metadata "usb.capdata").getD "")) = none) := by
  unfold process_packet
  cases hf : p.layer_name "frame" with
  | none =>
    simp only [hf]
    simp [eq_comm]
  | some fl =>
    simp only [hf]
    try dsimp only
    cases hu : p.layer_name "usb" with
    | none =>
      simp only [hu]
      simp [eq_comm]
    | some ul =>
      simp only [hu]
      try dsimp only
      cases hd : hexDecodePayload (stripColons ((ul.metadata "usb.capdata").getD "")) with
      | none =>
        simp only [hd]
        rw [hexDecodePayload_eq_none] at hd
        simp [hd.1, hd.2, eq_comm, Ne.symm hd.1]
      | some bs =>
        simp only [hd]
        have hsome := hexDecodePayload_eq_some _ _ hd
        simp [hsome]

/-- C4: every successfully extracted record stores in
`payload_bytes_hex` exactly the re-encoding of the bytes decoded from
its (already colon-stripped) `payload_hex`, which is the canonical
lowercase form of that hex string. -/
theorem payload_roundtrip (p : Packet) (session_id : String) (verbose : Bool) (now : String)
    (r : UsbPacketRecord) (h : process_packet p session_id verbose now = Except.ok r) :
    (∃ bs, hexDecode r.payload_hex = some bs ∧ r.payload_bytes_hex = hexEncode bs) ∧
    r.payload_bytes_hex = lowerStr (stripColons r.payload_hex) ∧
    stripColons r.payload_hex = r.payload_hex := by
  unfold process_packet at h
  cases hf : p.layer_name "frame" with
  | none => rw [hf] at h; exact Except.noConfusion h
  | some fl =>
    rw [hf] at h
    dsimp only at h
    cases hu : p.layer_name "usb" with
    | none => rw [hu] at h; exact Except.noConfusion h
    | some ul =>
      rw [hu] at h
      dsimp only at h
      cases hd : hexDecodePayload (stripColons ((ul.metadata "usb.capdata").getD "")) with
      | none => rw [hd] at h; exact Except.noConfusion h
      | some bs =>
        rw [hd] at h
        dsimp only at h
        have hr := Except.ok.inj h
        subst hr
        have hsome := hexDecodePayload_eq_some _ _ hd
        refine ⟨⟨bs, hsome, rfl⟩, ?_, ?_⟩
        · show hexEncode bs =
            lowerStr (stripColons (stripColons ((ul.metadata "usb.capdata").getD "")))
          rw [stripColons_idem]
          exact hexDecode_roundtrip _ bs hsome
        · exact stripColons_idem _

/-- Witness for C4 on `samplePacket`, whose payload `1a:2B` cleans to
`1a2B`, decodes to bytes `[26, 43]` and re-encodes to `1a2b`. -/
theorem payload_roundtrip_witness :
    (∃ bs, hexDecode sampleRecord.payload_hex = some bs ∧
      sampleRecord.payload_bytes_hex = hexEncode bs) ∧
    sampleRecord.payload_bytes_hex = lowerStr (stripColons sampleRecord.payload_hex) ∧
    stripColons sampleRecord.payload_hex = sampleRecord.payload_hex :=
  payload_roundtrip samplePacket "S" false "T" sampleRecord rfl

/-- C5: the direction of every successfully extracted record is the
total, closed three-way mapping of the raw
`usb.endpoint_address.direction` field: `"0"` to `H->D`, `"1"` to
`D->H`, anything else (including absence) to `Unknown`, and no other
direction string is ever produced. -/
theorem direction_mapping (p : Packet) (session_id : String) (verbose : Bool) (now : String)
    (r : UsbPacketRecord) (h : process_packet p session_id verbose now = Except.ok r) :
    ∃ ul, p.layer_name "usb" = some ul ∧
      r.direction = (match ul.metadata "usb.endpoint_address.direction" with
        | some "0" => "H->D"
        | some "1" => "D->H"
        | _ => "Unknown") ∧
      (r.direction = "H->D" ∨ r.direction = "D->H" ∨ r.direction = "Unknown") := by
  unfold process_packet at h
  cases hf : p.layer_name "frame" with
  | none => rw [hf] at h; exact Except.noConfusion h
  | some fl =>
    rw [hf] at h
    dsimp only at h
    cases hu : p.layer_name "usb" with
    | none => rw [hu] at h; exact Except.noConfusion h
    | some ul =>
      rw [hu] at h
      dsimp only at h
      refine ⟨ul, rfl, ?_⟩
      cases hd : hexDecodePayload (stripColons ((ul.metadata "usb.capdata").getD "")) with
      | none => rw [hd] at h; exact Except.noConfusion h
      | some bs =>
        rw [hd] at h
        dsimp only at h
        have hr := Except.ok.inj h
        subst hr
        constructor
        · rfl
        · rcases hm : ul.metadata "usb.endpoint_address.direction" with _ | s
          · simp [hm]
          · by_cases h0 : s = "0"
            · subst h0; simp [hm]
            · by_cases h1 : s = "1"
              · subst h1; simp [hm]
              · simp [hm, h0, h1]

/-- Witness for C5 on `samplePacket`, whose raw direction field is `"1"`
and whose extracted record has direction `D->H`. -/
theorem direction_mapping_witness :
    ∃ ul, samplePacket.layer_name "usb" = some ul ∧
      sampleRecord.direction = (match ul.metadata "usb.endpoint_address.direction" with
        | some "0" => "H->D"
        | some "1" => "D->H"
        | _ => "Unknown") ∧
      (sampleRecord.direction = "H->D" ∨ sampleRecord.direction = "D->H" ∨
        sampleRecord.direction = "Unknown") :=
  direction_mapping samplePacket "S" false "T" sampleRecord rfl

/-- C6: an append-mode merge of a non-empty batch that passes both
duplicate guards yields `Combined` with exactly the existing rows in
their original order followed by the new rows in extraction order. -/
theorem merge_combined_order (newRecords ex : List UsbPacketRecord) (sid : String)
    (hne : newRecords ≠ []) (hsid : sid ∉ sessionIds ex)
    (hover : sampleOverlap newRecords ex < 2) :
    merge newRecords (some ex) sid true = MergeOutcome.combined (ex ++ newRecords) := by
  have hie : newRecords.isEmpty = false := by simpa [List.isEmpty_iff] using hne
  have hnotall : ¬(0 < newRecords.length ∧ 0 < ex.length ∧
      2 ≤ sampleOverlap newRecords ex) := by
    rintro ⟨-, -, h2⟩; omega
  simp [merge, hie, hsid, hnotall]

/-- Witness for C6: merging existing rows `[e1, e2]` with new rows
`[n1, n2]` under a fresh session id and no sampled overlap yields
exactly `[e1, e2, n1, n2]`. -/
theorem merge_combined_order_witness :
    merge [mkRec "S2" "n1", mkRec "S2" "n2"] (some [mkRec "S1" "e1", mkRec "S1" "e2"])
        "S2" true =
      MergeOutcome.combined
        ([mkRec "S1" "e1", mkRec "S1" "e2"] ++ [mkRec "S2" "n1", mkRec "S2" "n2"]) :=
  merge_combined_order [mkRec "S2" "n1", mkRec "S2" "n2"] [mkRec "S1" "e1", mkRec "S1" "e2"]
    "S2" (by decide) (by decide) (by decide)

/-- C7: a merge invocation with an empty extracted batch short-circuits
for every existing dataset and append flag: the outcome is the empty
batch report, no write occurs, the existing dataset is untouched, and
the reported extracted-record count is zero. -/
theorem merge_empty_short_circuit (existing : Option (List UsbPacketRecord)) (sid : String)
    (append : Bool) :
    merge [] existing sid append = MergeOutcome.emptyBatch ∧
    writeEffect existing (merge [] existing sid append) = existing ∧
    reportedRecordCount [] = 0 :=
  ⟨rfl, rfl, rfl⟩

/-- C8: once the final table has been saved, a failure of the post-save
statistics computation is never treated as a save failure: the run still
reports success with the already-known row count, the failure surfacing
only as a warning flag. -/
theorem stats_failure_nonfatal (final_df : List UsbPacketRecord) (e : String) :
    finalizeAfterSave final_df (Except.error e) =
      RunResult.success final_df.length true :=
  rfl

/-- Counterexample to C9 as stated: with the device address supplied
explicitly and the session id not supplied, the filename `nodots` does
not match the pattern `<stem>.<addr>.<ext>`, yet the run does not exit
with an error: the session id silently falls back to the whole
filename. -/
theorem auto_detection_cex :
    resolveIdentifiers (some 5) none "nodots" = Except.ok (5, "nodots") :=
  rfl

/-- C9 (amended): only the device address makes auto-detection fatal:
when it is not supplied and cannot be derived from the filename the run
fails with the auto-detection error before any parsing; whenever the
device address resolves, identifier resolution succeeds, the session id
falling back to the filename with its final extension removed (or the
whole filename) without any failure case. -/
theorem auto_detection_device_only (dev : Option Nat) (sid : Option String) (fn : String) :
    (dev = none → autoDetectDeviceAddress fn = none →
      resolveIdentifiers dev sid fn = Except.error detectErrMsg) ∧
    (∀ d, resolveDeviceAddress dev fn = Except.ok d →
      resolveIdentifiers dev sid fn = Except.ok (d, resolveSessionId sid fn)) := by
  constructor
  · intro hdev hauto
    subst hdev
    simp [resolveIdentifiers, resolveDeviceAddress, hauto]
  · intro d hd
    simp [resolveIdentifiers, hd]

/-- Witness for the amended C9: with neither identifier supplied and a
filename without dots, the run fails with the device-address
auto-detection error. -/
theorem auto_detection_device_only_witness :
    resolveIdentifiers none none "nodots" = Except.error detectErrMsg :=
  (auto_detection_device_only none none "nodots").1 rfl rfl

/-- C10: the duplicate-content heuristic counts sampled overlaps with
multiplicity, not as a set: a urb id occurring at least twice among the
first 5 new ids and present among the first 100 existing ids already
reaches the threshold of 2, so an append-mode merge under a fresh
session id is rejected as likely duplicate content even though only one
distinct id overlaps. -/
theorem merge_overlap_multiplicity (newRecords ex : List UsbPacketRecord) (sid v : String)
    (hne : newRecords ≠ []) (hsid : sid ∉ sessionIds ex)
    (hcount : 2 ≤ ((newRecords.map fun r => r.urb_id).take 5).count v)
    (hmem : v ∈ (ex.map fun r => r.urb_id).take 100) :
    merge newRecords (some ex) sid true = MergeOutcome.rejectedLikelyDuplicateContent := by
  have hv : ((ex.map fun r => r.urb_id).take 100).contains v = true := by
    simpa [List.contains] using hmem
  have hover : 2 ≤ sampleOverlap newRecords ex := by
    unfold sampleOverlap
    rw [← List.countP_eq_length_filter]
    exact le_trans hcount (count_le_countP _ v _ hv)
  have hie : newRecords.isEmpty = false := by simpa [List.isEmpty_iff] using hne
  have hlen : 0 < newRecords.length := List.length_pos.mpr hne
  have hexne : ex ≠ [] := sampleOverlap_pos_ne_nil newRecords ex (by omega)
  have hexlen : 0 < ex.length := List.length_pos.mpr hexne
  simp [merge, hie, hsid, hlen, hexlen, hover]

/-- Witness for C10: the new batch repeats urb id `u1` twice, the
existing dataset holds `u1` once under another session, and the merge is
rejected. -/
theorem merge_overlap_multiplicity_witness :
    merge [mkRec "S2" "u1", mkRec "S2" "u1"] (some [mkRec "S1" "u1"]) "S2" true =
      MergeOutcome.rejectedLikelyDuplicateContent :=
  merge_overlap_multiplicity [mkRec "S2" "u1", mkRec "S2" "u1"] [mkRec "S1" "u1"] "S2" "u1"
    (by decide) (by decide) (by decide) (by decide)
